import Mathlib

/-!
Shallow embedding of `src/nexus_python/nexusdb.py` (the NexusDB HTTP client):
the tagged-value decoder `extract_value_and_type`, the response shaper
`_process_response`, the column-default resolver inside `create`, and the
payload builder `modify_data`, together with the Python-semantics helpers
(membership, subscription, iteration, truthiness, `str`/`repr`, `json.dumps`)
that the source relies on.  Python exceptions are modelled with
`Except String`; a `.error` value stands for a raised exception.
-/

/-- Python objects as produced by `json` parsing: `None`, `bool`, `int`,
`float` (kept as an opaque literal, never computed with), `str`, `list`, and
`dict` (an insertion-ordered association list, as Python dicts are). -/
inductive Json where
  | null : Json
  | bool (b : Bool) : Json
  | int (n : Int) : Json
  | float (lit : String) : Json
  | str (s : String) : Json
  | arr (xs : List Json) : Json
  | obj (kvs : List (String × Json)) : Json

/-- Python truthiness `bool(x)` for parsed-JSON objects. -/
def pyTruthy : Json → Bool
  | .null => false
  | .bool b => b
  | .int n => n != 0
  | .float lit => !(lit == "0.0" || lit == "-0.0" || lit == "0")
  | .str s => s != ""
  | .arr xs => !xs.isEmpty
  | .obj kvs => !kvs.isEmpty

/-- First binding of key `k` in an association list (Python dict lookup). -/
def lookupKey : List (String × Json) → String → Option Json
  | [], _ => none
  | (k1, v) :: rest, k => if k1 = k then some v else lookupKey rest k

/-- Does the dict bind key `k` (Python `k in d` for a dict `d`)? -/
def hasKey (kvs : List (String × Json)) (k : String) : Bool :=
  kvs.any (fun kv => kv.1 == k)

/-- Is `lead` an initial segment of the second list? -/
def leadMatches : List Char → List Char → Bool
  | [], _ => true
  | _ :: _, [] => false
  | a :: as, b :: bs => a == b && leadMatches as bs

/-- Does `needle` occur contiguously in the list (Python substring test)? -/
def subMatches (needle : List Char) : List Char → Bool
  | [] => needle.isEmpty
  | c :: rest => leadMatches needle (c :: rest) || subMatches needle rest

/-- Python `needle in hay` for strings: contiguous-substring test. -/
def strContainsSub (hay needle : String) : Bool :=
  subMatches needle.toList hay.toList

/-- Python `needle in v` for a string needle: key membership for dicts,
substring for strings, element equality for lists; `TypeError` otherwise
(e.g. `"Int" in 5` raises in the source). -/
def pyContains (v : Json) (needle : String) : Except String Bool :=
  match v with
  | .obj kvs => .ok (hasKey kvs needle)
  | .arr xs => .ok (xs.any (fun x => match x with | .str s => s == needle | _ => false))
  | .str s => .ok (strContainsSub s needle)
  | _ => .error "TypeError: argument is not iterable"

/-- Python `v[k]` for a string key: dict lookup (or `KeyError`); a string or
list subscripted by a string raises `TypeError`. -/
def pyGetItem (v : Json) (k : String) : Except String Json :=
  match v with
  | .obj kvs =>
    match lookupKey kvs k with
    | some x => .ok x
    | none => .error ("KeyError: " ++ k)
  | .str _ => .error "TypeError: string indices must be integers"
  | .arr _ => .error "TypeError: list indices must be integers"
  | _ => .error "TypeError: object is not subscriptable"

/-- Python `v[i]` for a nonnegative int index: list/string indexing (or
`IndexError`); a string-keyed dict raises `KeyError`, scalars `TypeError`. -/
def pyIndexNat (v : Json) (i : Nat) : Except String Json :=
  match v with
  | .arr xs =>
    match xs[i]? with
    | some x => .ok x
    | none => .error "IndexError: list index out of range"
  | .str s =>
    match s.toList[i]? with
    | some c => .ok (.str (String.singleton c))
    | none => .error "IndexError: string index out of range"
  | .obj _ => .error "KeyError: int key"
  | _ => .error "TypeError: object is not subscriptable"

/-- Python `for x in v`: list elements, string characters (as one-character
strings), dict keys; `TypeError` otherwise. -/
def pyIter (v : Json) : Except String (List Json) :=
  match v with
  | .arr xs => .ok xs
  | .str s => .ok (s.toList.map (fun c => .str (String.singleton c)))
  | .obj kvs => .ok (kvs.map (fun kv => .str kv.1))
  | _ => .error "TypeError: object is not iterable"

mutual
/-- Python `repr` of a parsed-JSON object: `None`/`True`/`False`, decimal
ints, single-quoted strings, bracketed list and dict displays. -/
def pyRepr : Json → String
  | .null => "None"
  | .bool true => "True"
  | .bool false => "False"
  | .int n => toString n
  | .float lit => lit
  | .str s => "\x27" ++ s ++ "\x27"
  | .arr xs => "[" ++ pyReprList xs ++ "]"
  | .obj kvs => "\x7b" ++ pyReprEntries kvs ++ "\x7d"

/-- Comma-joined `repr`s of list elements. -/
def pyReprList : List Json → String
  | [] => ""
  | [x] => pyRepr x
  | x :: y :: rest => pyRepr x ++ ", " ++ pyReprList (y :: rest)

/-- Comma-joined `'key': repr(value)` renderings of dict entries. -/
def pyReprEntries : List (String × Json) → String
  | [] => ""
  | [(k, v)] => "\x27" ++ k ++ "\x27: " ++ pyRepr v
  | (k, v) :: e :: rest => "\x27" ++ k ++ "\x27: " ++ pyRepr v ++ ", " ++ pyReprEntries (e :: rest)
end

/-- Python `str(x)`: the string itself for strings, `repr` otherwise. -/
def pyToStr : Json → String
  | .str s => s
  | v => pyRepr v

/-- Minimal JSON string escaping used by `json.dumps`. -/
def jsonEscapeChar (c : Char) : String :=
  if c = '"' then "\\\"" else if c = '\\' then "\\\\" else String.singleton c

/-- Escape a whole string for `json.dumps`. -/
def jsonEscape (s : String) : String :=
  String.join (s.toList.map jsonEscapeChar)

mutual
/-- Serialisation as `json.dumps` produces it, with the default separators (`", "` and `": "`). -/
def dumps : Json → String
  | .null => "null"
  | .bool true => "true"
  | .bool false => "false"
  | .int n => toString n
  | .float lit => lit
  | .str s => "\"" ++ jsonEscape s ++ "\""
  | .arr xs => "[" ++ dumpsList xs ++ "]"
  | .obj kvs => "\x7b" ++ dumpsEntries kvs ++ "\x7d"

/-- Comma-joined serialisations of list elements. -/
def dumpsList : List Json → String
  | [] => ""
  | [x] => dumps x
  | x :: y :: rest => dumps x ++ ", " ++ dumpsList (y :: rest)

/-- Comma-joined `"key": value` serialisations of dict entries. -/
def dumpsEntries : List (String × Json) → String
  | [] => ""
  | [(k, v)] => "\"" ++ jsonEscape k ++ "\": " ++ dumps v
  | (k, v) :: e :: rest =>
    "\"" ++ jsonEscape k ++ "\": " ++ dumps v ++ ", " ++ dumpsEntries (e :: rest)
end

/-- The `"Num"` branch of the decoder key loop (`nexusdb.py` lines 53-57):
`"Int" in value` (which can raise), then `value["Int"]`; else the same for
`"Float"`; when the payload carries neither, the loop continues with
`onMiss` (the rest of the loop). -/
def extract_num_branch (value : Json) (onMiss : Except String (Json × String)) :
    Except String (Json × String) :=
  match pyContains value "Int" with
  | .error e => .error e
  | .ok true =>
    match pyGetItem value "Int" with
    | .error e => .error e
    | .ok x => .ok (x, "Int")
  | .ok false =>
    match pyContains value "Float" with
    | .error e => .error e
    | .ok true =>
      match pyGetItem value "Float" with
      | .error e => .error e
      | .ok x => .ok (x, "Float")
    | .ok false => onMiss

mutual
/-- The function `extract_value_and_type` (`nexusdb.py` lines 50-72): decode one tagged
cell into a (value, type-label) pair; `.error` models a raised `TypeError`,
which the source can hit (e.g. on `{"Num": 5}` via `"Int" in 5`). -/
def extract_value_and_type : Json → Except String (Json × String)
  | .obj kvs => extract_value_entries (pyRepr (.obj kvs)) kvs
  | cell => .ok (cell, "Unknown")

/-- The `for key, value in cell.items()` loop of `extract_value_and_type`;
`fallback` is `str(cell)`, returned with label `"Unknown"` when no entry
produces a result. -/
def extract_value_entries (fallback : String) :
    List (String × Json) → Except String (Json × String)
  | [] => .ok (.str fallback, "Unknown")
  | (key, value) :: rest =>
    if key == "Num" then extract_num_branch value (extract_value_entries fallback rest)
    else if key == "Str" then .ok (value, "Str")
    else if key == "Bool" then .ok (value, "Bool")
    else if key == "Uuid" then .ok (value, "Uuid")
    else if key == "Json" then .ok (value, "Json")
    else if key == "List" then extract_list_branch value
    else extract_value_entries fallback rest

/-- The `"List"` branch: iterate the payload and decode every item,
keeping only the values.  Iterating a Python string yields its characters
and a dict its keys — each a non-dict cell that decodes to itself — so
those two iteration cases are written out directly; non-iterable payloads
raise `TypeError` as `for item in value` does. -/
def extract_list_branch : Json → Except String (Json × String)
  | .arr items =>
    (extract_value_list items).map (fun vals => (.arr vals, "List"))
  | .str s => .ok (.arr (s.toList.map (fun c => .str (String.singleton c))), "List")
  | .obj inner => .ok (.arr (inner.map (fun kv => .str kv.1)), "List")
  | _ => .error "TypeError: object is not iterable"

/-- The `"List"` comprehension: each item's decoded value, with each item's
own type label discarded. -/
def extract_value_list : List Json → Except String (List Json)
  | [] => .ok []
  | item :: items =>
    (extract_value_and_type item).bind
      (fun vt => (extract_value_list items).map (fun vals => vt.1 :: vals))
end

/-- Is the payload of a `"Num"` tag a dict (so that `"Int" in value` and
`value["Int"]` cannot raise)? -/
def numPayloadSafe : Json → Bool
  | .obj _ => true
  | _ => false

mutual
/-- Cells on which the decoder is proved to raise nothing: every `"Num"`
tag wraps a dict and every `"List"` tag wraps a list of such cells.  (A
sufficient condition: the source raises `TypeError` e.g. when `"Num"` wraps
a plain int, because `"Int" in 5` is a Python type error.) -/
def safeCell : Json → Bool
  | .obj kvs => safeEntries kvs
  | _ => true

/-- Safety (`safeCell`) over the entries of a dict cell. -/
def safeEntries : List (String × Json) → Bool
  | [] => true
  | (key, value) :: rest =>
    (if key == "Num" then numPayloadSafe value else true)
    && (if key == "List" then listPayloadSafe value else true)
    && safeEntries rest

/-- Is the payload of a `"List"` tag a list of safe cells? -/
def listPayloadSafe : Json → Bool
  | .arr items => safeItems items
  | _ => false

/-- Safety (`safeCell`) over the items of a `"List"` payload. -/
def safeItems : List Json → Bool
  | [] => true
  | item :: items => safeCell item && safeItems items
end

/-- Does a `"Num"` payload hold neither an `"Int"` nor a `"Float"` key (so
the `Num` branch returns nothing and the loop continues)? -/
def numFallsThrough : Json → Bool
  | .obj inner => !hasKey inner "Int" && !hasKey inner "Float"
  | _ => false

/-- A dict entry on which the decoder key loop falls through to the next
entry: the key matches no recognised tag, and a `"Num"` key wraps a dict
holding neither `"Int"` nor `"Float"`. -/
def entryFallsThrough (kv : String × Json) : Bool :=
  !(kv.1 == "Str") && !(kv.1 == "Bool") && !(kv.1 == "Uuid") && !(kv.1 == "Json")
    && !(kv.1 == "List")
    && (if kv.1 == "Num" then numFallsThrough kv.2 else true)

/-- The `typed_headers` per-column loop (`nexusdb.py` lines 78-81): the header at
position `i` rendered through the f-string with the cell's type label. -/
def typed_header_cells (headers : Json) : Nat → List Json → Except String (List Json)
  | _, [] => .ok []
  | i, cell :: cells =>
    match pyIndexNat headers i with
    | .error e => .error e
    | .ok h =>
      match extract_value_and_type cell with
      | .error e => .error e
      | .ok vt =>
        match typed_header_cells headers (i + 1) cells with
        | .error e => .error e
        | .ok rest => .ok (.str (pyToStr h ++ " (" ++ vt.2 ++ ")") :: rest)

/-- The `typed_headers` computation (`nexusdb.py` lines 74-83): when the rows value is truthy
the first row's cells annotate the headers; otherwise the headers are used
unmodified. -/
def typed_headers_calc (headers rows : Json) : Except String Json :=
  if pyTruthy rows then
    match pyIndexNat rows 0 with
    | .error e => .error e
    | .ok first_row =>
      match pyIter first_row with
      | .error e => .error e
      | .ok cells =>
        match typed_header_cells headers 0 cells with
        | .error e => .error e
        | .ok ths => .ok (.arr ths)
  else .ok headers

/-- The inner comprehension of `simplified_rows`: each cell's decoded value. -/
def simplify_cells : List Json → Except String (List Json)
  | [] => .ok []
  | cell :: cells =>
    match extract_value_and_type cell with
    | .error e => .error e
    | .ok vt =>
      match simplify_cells cells with
      | .error e => .error e
      | .ok vals => .ok (vt.1 :: vals)

/-- The outer comprehension of `simplified_rows`, over the rows. -/
def simplify_row_list : List Json → Except String (List Json)
  | [] => .ok []
  | row :: rest =>
    match pyIter row with
    | .error e => .error e
    | .ok cells =>
      match simplify_cells cells with
      | .error e => .error e
      | .ok vals =>
        match simplify_row_list rest with
        | .error e => .error e
        | .ok rs => .ok (.arr vals :: rs)

/-- The `simplified_rows` computation (`nexusdb.py` lines 85-87). -/
def simplify_rows (rows : Json) : Except String (List Json) :=
  match pyIter rows with
  | .error e => .error e
  | .ok rowList => simplify_row_list rowList

/-- Replace the first binding of `k` (Python `d[k] = v` on a dict: the key
keeps its position when present, otherwise it is appended at the end). -/
def setKey : List (String × Json) → String → Json → List (String × Json)
  | [], k, v => [(k, v)]
  | (k1, v1) :: rest, k, v =>
    if k1 = k then (k, v) :: rest else (k1, v1) :: setKey rest k v

/-- Assignment `response_data["rows"] = simplified_rows` on the parsed body. -/
def setKeyJson (rd : Json) (k : String) (v : Json) : Json :=
  match rd with
  | .obj kvs => .obj (setKey kvs k v)
  | other => other

/-- Modelled from the spec: the third-party `tabulate` library (not part of
this repository) renders the simplified rows under the given headers as an
aligned text table; modelled as a plain textual rendering of the headers
followed by the rows. -/
def tabulate_render (rows : List Json) (headers : Json) : String :=
  pyToStr headers ++ "\n" ++ String.intercalate "\n" (rows.map pyToStr)

/-- The tabular branch of `_process_response` (`nexusdb.py` lines 47-100),
entered when both `"headers"` and `"rows"` are present in the parsed body. -/
def process_tabular (rd : Json) (tabulate_option include_types : Bool) :
    Except String String :=
  match pyGetItem rd "headers" with
  | .error e => .error e
  | .ok headers =>
    match pyGetItem rd "rows" with
    | .error e => .error e
    | .ok rows =>
      match (if include_types then typed_headers_calc headers rows else .ok headers) with
      | .error e => .error e
      | .ok typed_headers =>
        match simplify_rows rows with
        | .error e => .error e
        | .ok simplified_rows =>
          if tabulate_option then
            if include_types then .ok (tabulate_render simplified_rows typed_headers)
            else .ok (tabulate_render simplified_rows headers)
          else
            if include_types then .ok (dumps rd)
            else .ok (dumps (setKeyJson rd "rows" (.arr simplified_rows)))

/-- The method `_process_response` (`nexusdb.py` lines 39-105).  The response is given
as its raw text together with the result of `response.json()` (`none` models
`json.JSONDecodeError`, the only exception the source catches); `.error`
models any other exception propagating out of the `try` block. -/
def process_response (text : String) (parsed : Option Json)
    (tabulate_option include_types : Bool) : Except String String :=
  if text = "" then .ok "Error: Empty response from server"
  else
    match parsed with
    | none => .ok ("Error: Response: " ++ text ++ " could not be decoded as JSON")
    | some response_data =>
      match pyContains response_data "headers" with
      | .error e => .error e
      | .ok hasHeaders =>
        match (if hasHeaders then pyContains response_data "rows" else .ok false) with
        | .error e => .error e
        | .ok hasRows =>
          if hasHeaders && hasRows then
            process_tabular response_data tabulate_option include_types
          else .ok text

/-- One user-supplied column spec for `create`: the `"name"` key is always
read by the source (`column["name"]`); the other keys are optional. -/
structure ColumnSpec where
  name : Json
  type : Option Json
  default : Option Json
  is_primary : Option Json

/-- A fully-populated column dict as appended to `formatted_columns`. -/
structure FormattedColumn where
  name : Json
  type : Json
  default : Json
  is_primary : Json

/-- The `primary_seen` flag as initialised in `create` (`nexusdb.py` lines 112-114):
some column has an `is_primary` key with a truthy value. -/
def primary_seen_init (columns : List ColumnSpec) : Bool :=
  columns.any (fun column =>
    match column.is_primary with
    | some v => pyTruthy v
    | none => false)

/-- The formatting loop of `create` (`nexusdb.py` lines 116-136), carrying
the running `primary_seen` flag and the enumeration index. -/
def create_columns_loop : Bool → Nat → List ColumnSpec → List FormattedColumn
  | _, _, [] => []
  | primary_seen, i, column :: rest =>
    let column_type := column.type.getD (.str "Any?")
    let column_default := column.default.getD .null
    match column.is_primary with
    | none =>
      let column_is_primary := !primary_seen && i == 0
      ⟨column.name, column_type, column_default, .bool column_is_primary⟩ ::
        create_columns_loop (primary_seen || column_is_primary) (i + 1) rest
    | some v =>
      ⟨column.name, column_type, column_default, v⟩ ::
        create_columns_loop primary_seen (i + 1) rest

/-- The `formatted_columns` list as computed by `create` (the column-default
resolver). -/
def create_formatted_columns (columns : List ColumnSpec) : List FormattedColumn :=
  create_columns_loop (primary_seen_init columns) 0 columns

/-- The optional keyword arguments of `modify_data`; `none` is Python
`None` (the parameter defaults). -/
structure ModifyArgs where
  fields : Option Json
  values : Option Json
  text : Option Json
  embeddings : Option Json
  access_keys : Option Json
  metadata : Option Json
  references : Option Json

/-- Assignment `payload["searchable_content"][key] = v`, creating the
`searchable_content` dict first when absent (`nexusdb.py` lines 203-210). -/
def setSearchable (payload : List (String × Json)) (key : String) (v : Json) :
    List (String × Json) :=
  if hasKey payload "searchable_content" then
    payload.map (fun kv =>
      if kv.1 = "searchable_content" then
        (kv.1, match kv.2 with
               | .obj inner => Json.obj (setKey inner key v)
               | other => other)
      else kv)
  else payload ++ [("searchable_content", .obj [(key, v)])]

/-- The method `modify_data` (`nexusdb.py` lines 151-217) up to the network call: the
validation checks (each `.error` is a raised `ValueError`, before any
request is made) and the built payload. -/
def modify_data (operation_type relation_name : Json) (a : ModifyArgs) :
    Except String (List (String × Json)) :=
  if (a.fields.isNone != a.values.isNone) then
    .error "Both fields and values must be specified together."
  else if (a.text.isNone != a.embeddings.isNone) then
    .error "Both text and embeddings must be specified together."
  else if (a.fields.isNone && a.text.isNone) then
    .error "You must specify fields/values or text/embeddings, or both."
  else
    let payload := [("query_type", operation_type), ("relation_name", relation_name)]
    let payload :=
      match a.fields, a.values with
      | some f, some v => payload ++ [("fields", f), ("values", v)]
      | _, _ => payload
    let payload :=
      match a.text, a.embeddings with
      | some t, some e =>
        payload ++ [("searchable_content", .obj [("text", t), ("embeddings", e)])]
      | _, _ => payload
    let payload :=
      match a.access_keys with
      | some k => payload ++ [("access_keys", k)]
      | none => payload
    let payload :=
      match a.metadata with
      | some m => setSearchable payload "metadata" m
      | none => payload
    let payload :=
      match a.references with
      | some r => setSearchable payload "reference" r
      | none => payload
    .ok payload

/-- Method `insert` delegates to `modify_data` with operation `"Insert"`. -/
def insert (relation_name : Json) (a : ModifyArgs) :
    Except String (List (String × Json)) :=
  modify_data (.str "Insert") relation_name a

/-- Method `upsert` delegates to `modify_data` with operation `"Upsert"`. -/
def upsert (relation_name : Json) (a : ModifyArgs) :
    Except String (List (String × Json)) :=
  modify_data (.str "Upsert") relation_name a

/-- Method `update` delegates to `modify_data` with operation `"Update"`. -/
def update (relation_name : Json) (a : ModifyArgs) :
    Except String (List (String × Json)) :=
  modify_data (.str "Update") relation_name a

/-! ### Basic lemmas about the Python-semantics helpers -/

theorem lookupKey_of_hasKey {kvs : List (String × Json)} {k : String}
    (h : hasKey kvs k = true) : ∃ x, lookupKey kvs k = some x := by
  induction kvs with
  | nil => simp [hasKey] at h
  | cons kv rest ih =>
    rcases kv with ⟨k1, v⟩
    by_cases hk : k1 = k
    · exact ⟨v, by simp [lookupKey, hk]⟩
    · have h2 : hasKey rest k = true := by
        simpa [hasKey, hk] using h
      rcases ih h2 with ⟨x, hx⟩
      exact ⟨x, by simp [lookupKey, hk, hx]⟩

theorem hasKey_of_lookupKey {kvs : List (String × Json)} {k : String} {x : Json}
    (h : lookupKey kvs k = some x) : hasKey kvs k = true := by
  induction kvs with
  | nil => simp [lookupKey] at h
  | cons kv rest ih =>
    rcases kv with ⟨k1, v⟩
    by_cases hk : k1 = k
    · simp [hasKey, hk]
    · simp only [lookupKey, if_neg hk] at h
      have h3 := ih h
      simp only [hasKey] at h3 ⊢
      simp only [List.any_cons, h3, Bool.or_true]

theorem pyGetItem_obj {kvs : List (String × Json)} {k : String} {x : Json}
    (h : lookupKey kvs k = some x) : pyGetItem (.obj kvs) k = .ok x := by
  simp [pyGetItem, h]

/-! ### C4: decoder equations for the recognised tags -/

/-- C4: `extract_value_and_type` maps each recognised singleton tagged cell
to its payload with the matching label — `{"Num":{"Int":n}}` to `(n, "Int")`,
`{"Num":{"Float":f}}` to `(f, "Float")`, `{"Str":s}` to `(s, "Str")`,
`{"Bool":b}` to `(b, "Bool")`, `{"Uuid":u}` to `(u, "Uuid")`, `{"Json":j}`
to `(j, "Json")` with `j` passed through unmodified — and any cell that is
not a dict to itself with label `"Unknown"`. -/
theorem C4_decoder_equations :
    (∀ n : Int, extract_value_and_type (.obj [("Num", .obj [("Int", .int n)])])
        = .ok (.int n, "Int")) ∧
    (∀ lit : String,
        extract_value_and_type (.obj [("Num", .obj [("Float", .float lit)])])
        = .ok (.float lit, "Float")) ∧
    (∀ s : String, extract_value_and_type (.obj [("Str", .str s)]) = .ok (.str s, "Str")) ∧
    (∀ b : Bool, extract_value_and_type (.obj [("Bool", .bool b)]) = .ok (.bool b, "Bool")) ∧
    (∀ u : String, extract_value_and_type (.obj [("Uuid", .str u)]) = .ok (.str u, "Uuid")) ∧
    (∀ j : Json, extract_value_and_type (.obj [("Json", j)]) = .ok (j, "Json")) ∧
    (∀ cell : Json, (∀ kvs, cell ≠ Json.obj kvs) →
        extract_value_and_type cell = .ok (cell, "Unknown")) := by
  refine ⟨fun n => rfl, fun lit => rfl, fun s => rfl, fun b => rfl, fun u => rfl,
    fun j => rfl, fun cell h => ?_⟩
  cases cell <;> try rfl
  exact absurd rfl (h _)

/-- Witness for C4 at the spec's concrete example `decode(42) = (42, "Unknown")`. -/
theorem C4_decoder_equations_witness :
    extract_value_and_type (.int 42) = .ok (.int 42, "Unknown") :=
  C4_decoder_equations.2.2.2.2.2.2 (.int 42) (fun _ h => Json.noConfusion h)

/-! ### C5: list decoding discards per-element labels -/

theorem extract_value_list_spec :
    ∀ xs vs, extract_value_list xs = .ok vs →
      vs.length = xs.length ∧
      ∀ i, i < xs.length → ∃ t,
        extract_value_and_type (xs.getD i .null) = .ok (vs.getD i .null, t) := by
  intro xs
  induction xs with
  | nil =>
    intro vs h
    simp only [extract_value_list] at h
    cases h
    simp
  | cons x xs ih =>
    intro vs h
    simp only [extract_value_list] at h
    cases hx : extract_value_and_type x with
    | error e => rw [hx] at h; cases h
    | ok vt =>
      rw [hx] at h
      cases hrest : extract_value_list xs with
      | error e => rw [hrest] at h; cases h
      | ok vals =>
        rw [hrest] at h
        cases h
        rcases ih vals hrest with ⟨hlen, hpt⟩
        refine ⟨by simp [hlen], fun i hi => ?_⟩
        cases i with
        | zero => exact ⟨vt.2, by simpa using hx⟩
        | succ i =>
          have hi2 : i < xs.length := by simpa using hi
          simpa using hpt i hi2

/-- C5: decoding `{"List": xs}` (when every element decodes) returns the
list of each element's recursively decoded value with label `"List"`: the
elements' own type labels are discarded and only their values are kept. -/
theorem C5_list_decode (xs vs : List Json) (h : extract_value_list xs = .ok vs) :
    extract_value_and_type (.obj [("List", .arr xs)]) = .ok (.arr vs, "List") ∧
    vs.length = xs.length ∧
    ∀ i, i < xs.length → ∃ t,
      extract_value_and_type (xs.getD i .null) = .ok (vs.getD i .null, t) := by
  refine ⟨?_, (extract_value_list_spec xs vs h).1, (extract_value_list_spec xs vs h).2⟩
  simp [extract_value_and_type, extract_value_entries, extract_list_branch, Except.map, h]

/-- Witness for C5 at the spec's example
`decode({"List":[{"Num":{"Int":1}},{"Str":"a"}]}) = ([1, "a"], "List")`. -/
theorem C5_list_decode_witness :
    extract_value_and_type
        (.obj [("List", .arr [.obj [("Num", .obj [("Int", .int 1)])], .str "a"])])
      = .ok (.arr [.int 1, .str "a"], "List") :=
  (C5_list_decode [.obj [("Num", .obj [("Int", .int 1)])], .str "a"]
    [.int 1, .str "a"] rfl).1


/-! ### C2: the decoder is not total; it is total on safe cells -/

theorem safeItems_cons {x : Json} {xs : List Json}
    (h : safeItems (x :: xs) = true) : safeCell x = true ∧ safeItems xs = true := by
  simpa [safeItems, Bool.and_eq_true] using h

theorem safeEntries_parts {key : String} {value : Json} {rest : List (String × Json)}
    (h : safeEntries ((key, value) :: rest) = true) :
    (if key == "Num" then numPayloadSafe value else true) = true ∧
    (if key == "List" then listPayloadSafe value else true) = true ∧
    safeEntries rest = true := by
  simp only [safeEntries, Bool.and_eq_true] at h
  exact ⟨h.1.1, h.1.2, h.2⟩

theorem safeEntries_num {key : String} {value : Json} {rest : List (String × Json)}
    (h : safeEntries ((key, value) :: rest) = true) (hk : (key == "Num") = true) :
    ∃ inner, value = Json.obj inner := by
  have h1 := (safeEntries_parts h).1
  rw [if_pos hk] at h1
  cases value <;> simp [numPayloadSafe] at h1
  exact ⟨_, rfl⟩

theorem safeEntries_list {key : String} {value : Json} {rest : List (String × Json)}
    (h : safeEntries ((key, value) :: rest) = true) (hk : (key == "List") = true) :
    ∃ items, value = Json.arr items ∧ safeItems items = true := by
  have h1 := (safeEntries_parts h).2.1
  rw [if_pos hk] at h1
  cases value <;> simp [listPayloadSafe] at h1
  exact ⟨_, rfl, h1⟩

theorem extract_num_branch_obj_ok {inner : List (String × Json)}
    {onMiss : Except String (Json × String)} (hmiss : onMiss.isOk = true) :
    (extract_num_branch (Json.obj inner) onMiss).isOk = true := by
  by_cases hInt : hasKey inner "Int" = true
  · rcases lookupKey_of_hasKey hInt with ⟨x, hx⟩
    simp [extract_num_branch, pyContains, hInt, pyGetItem, hx, Except.isOk, Except.toBool]
  · have hInt2 : hasKey inner "Int" = false := by
      cases h2 : hasKey inner "Int" <;> simp_all
    by_cases hFl : hasKey inner "Float" = true
    · rcases lookupKey_of_hasKey hFl with ⟨x, hx⟩
      simp [extract_num_branch, pyContains, hInt2, hFl, pyGetItem, hx, Except.isOk,
        Except.toBool]
    · have hFl2 : hasKey inner "Float" = false := by
        cases h2 : hasKey inner "Float" <;> simp_all
      simpa [extract_num_branch, pyContains, hInt2, hFl2] using hmiss

theorem safe_extract_ok :
    ∀ c, safeCell c = true → (extract_value_and_type c).isOk = true := by
  refine extract_value_and_type.induct
    (fun c => safeCell c = true → (extract_value_and_type c).isOk = true)
    (fun fb kvs => safeEntries kvs = true → (extract_value_entries fb kvs).isOk = true)
    (fun v => listPayloadSafe v = true → (extract_list_branch v).isOk = true)
    (fun xs => safeItems xs = true → (extract_value_list xs).isOk = true)
    ?_ ?_ ?_ ?_ ?_ ?_ ?_ ?_ ?_ ?_ ?_ ?_ ?_ ?_ ?_ ?_
  · intro kvs ih hs
    simp only [safeCell] at hs
    have hstep : extract_value_and_type (Json.obj kvs)
        = extract_value_entries (pyRepr (Json.obj kvs)) kvs := by
      simp [extract_value_and_type]
    rw [hstep]
    exact ih hs
  · intro cell hne _
    have hstep : extract_value_and_type cell = .ok (cell, "Unknown") := by
      cases cell <;> try simp [extract_value_and_type]
      exact absurd rfl (hne _)
    rw [hstep]
    rfl
  · intro xs ih hsafe
    simp only [listPayloadSafe] at hsafe
    have hx := ih hsafe
    cases hres : extract_value_list xs with
    | error e => rw [hres] at hx; simp [Except.isOk, Except.toBool] at hx
    | ok vals =>
      have hstep : extract_list_branch (Json.arr xs) = .ok (.arr vals, "List") := by
        simp [extract_list_branch, hres, Except.map]
      rw [hstep]
      rfl
  · intro s hsafe
    simp [listPayloadSafe] at hsafe
  · intro kvs hsafe
    simp [listPayloadSafe] at hsafe
  · intro t harr hstr2 hobj hsafe
    cases t <;> try simp [listPayloadSafe] at hsafe
    exact absurd rfl (harr _)
  · intro _
    have hstep : extract_value_list ([] : List Json) = .ok [] := by
      simp [extract_value_list]
    rw [hstep]
    rfl
  · intro item items ih1 ih2 hs
    have h1 := ih1 (safeItems_cons hs).1
    have h2 := ih2 (safeItems_cons hs).2
    cases hres1 : extract_value_and_type item with
    | error e => rw [hres1] at h1; simp [Except.isOk, Except.toBool] at h1
    | ok vt =>
      cases hres2 : extract_value_list items with
      | error e => rw [hres2] at h2; simp [Except.isOk, Except.toBool] at h2
      | ok vals =>
        have hstep : extract_value_list (item :: items) = .ok (vt.1 :: vals) := by
          simp [extract_value_list, hres1, hres2, Except.bind, Except.map]
        rw [hstep]
        rfl
  · intro fb _
    rw [extract_value_entries.eq_1]
    rfl
  · intro fb key value rest hk ih hs
    rcases safeEntries_num hs hk with ⟨inner, rfl⟩
    rw [extract_value_entries.eq_2, if_pos hk]
    exact extract_num_branch_obj_ok (ih (safeEntries_parts hs).2.2)
  · intro fb key value rest hnum hstr hs
    rw [extract_value_entries.eq_2, if_neg hnum, if_pos hstr]
    rfl
  · intro fb key value rest hnum hstr hbool hs
    rw [extract_value_entries.eq_2, if_neg hnum, if_neg hstr, if_pos hbool]
    rfl
  · intro fb key value rest hnum hstr hbool huuid hs
    rw [extract_value_entries.eq_2, if_neg hnum, if_neg hstr, if_neg hbool, if_pos huuid]
    rfl
  · intro fb key value rest hnum hstr hbool huuid hjson hs
    rw [extract_value_entries.eq_2, if_neg hnum, if_neg hstr, if_neg hbool, if_neg huuid,
      if_pos hjson]
    rfl
  · intro fb key value rest hnum hstr hbool huuid hjson hlist ih hs
    rw [extract_value_entries.eq_2, if_neg hnum, if_neg hstr, if_neg hbool, if_neg huuid,
      if_neg hjson, if_pos hlist]
    have hsafe := (safeEntries_parts hs).2.1
    rw [if_pos hlist] at hsafe
    exact ih hsafe
  · intro fb key value rest hnum hstr hbool huuid hjson hlist ih hs
    rw [extract_value_entries.eq_2, if_neg hnum, if_neg hstr, if_neg hbool, if_neg huuid,
      if_neg hjson, if_neg hlist]
    exact ih (safeEntries_parts hs).2.2

theorem extract_fallsThrough (fb : String) :
    ∀ kvs, kvs.all entryFallsThrough = true →
      extract_value_entries fb kvs = .ok (.str fb, "Unknown") := by
  intro kvs
  induction kvs with
  | nil =>
    intro _
    rw [extract_value_entries.eq_1]
  | cons kv rest ih =>
    intro h
    rcases kv with ⟨key, value⟩
    simp only [List.all_cons, Bool.and_eq_true] at h
    rcases h with ⟨hkv, hrest⟩
    simp only [entryFallsThrough, Bool.and_eq_true, Bool.not_eq_true'] at hkv
    obtain ⟨⟨⟨⟨⟨hStr, hBool⟩, hUuid⟩, hJson⟩, hList⟩, hNum⟩ := hkv
    rw [extract_value_entries.eq_2]
    by_cases hk : (key == "Num") = true
    · rw [if_pos hk]
      rw [if_pos hk] at hNum
      cases value <;> simp [numFallsThrough] at hNum
      rename_i inner
      have hstep : extract_num_branch (Json.obj inner) (extract_value_entries fb rest)
          = extract_value_entries fb rest := by
        simp [extract_num_branch, pyContains, hNum.1, hNum.2]
      rw [hstep]
      exact ih hrest
    · rw [if_neg hk, if_neg (by simp [hStr]), if_neg (by simp [hBool]),
        if_neg (by simp [hUuid]), if_neg (by simp [hJson]), if_neg (by simp [hList])]
      exact ih hrest

/-- C2 is false as stated: on the dict cell `{"Num": 5}` — an object whose
tag key wraps an unexpected value — the decoder raises `TypeError` (Python
evaluates `"Int" in 5`) rather than returning a best-effort pair. -/
theorem C2_decoder_total_counterexample :
    extract_value_and_type (.obj [("Num", .int 5)])
      = .error "TypeError: argument is not iterable" := rfl

/-- C2 (amended): the decoder returns a (value, typeLabel) pair without
raising for every safe cell — one in which every `"Num"` tag wraps a dict
and every `"List"` tag wraps a list of safe cells — and on a safe dict cell
none of whose entries matches a recognised tag shape it returns the cell's
string representation with label `"Unknown"`.  (On unsafe cells such as
`{"Num": 5}` a `TypeError` propagates, which refutes the claim as stated
for arbitrary nested objects.) -/
theorem C2_decoder_safe_amended (cell : Json) (h : safeCell cell = true) :
    (extract_value_and_type cell).isOk = true ∧
    (∀ kvs, cell = Json.obj kvs → kvs.all entryFallsThrough = true →
      extract_value_and_type cell = .ok (.str (pyRepr cell), "Unknown")) := by
  refine ⟨safe_extract_ok cell h, ?_⟩
  rintro kvs rfl hall
  have hstep : extract_value_and_type (Json.obj kvs)
      = extract_value_entries (pyRepr (Json.obj kvs)) kvs := by
    simp [extract_value_and_type]
  rw [hstep]
  exact extract_fallsThrough (pyRepr (Json.obj kvs)) kvs hall

/-- Witness for C2 (amended) at the unrecognised-tag cell `{"Foo": 1}`. -/
theorem C2_decoder_safe_witness :
    (extract_value_and_type (.obj [("Foo", .int 1)])).isOk = true ∧
    extract_value_and_type (.obj [("Foo", .int 1)])
      = .ok (.str (pyRepr (.obj [("Foo", .int 1)])), "Unknown") := by
  have h := C2_decoder_safe_amended (.obj [("Foo", .int 1)]) rfl
  exact ⟨h.1, h.2 [("Foo", .int 1)] rfl rfl⟩

/-! ### C1: primary-key defaulting in `create` -/

/-- The primary flag the loop assigns at offset `j` when started with flag
`seen` and index `i0` (see `create_columns_loop_getD`). -/
def loop_expected_primary (seen : Bool) (i0 j : Nat) (c : ColumnSpec) : Json :=
  match c.is_primary with
  | some v => v
  | none => Json.bool (!seen && i0 == 0 && j == 0)

/-- The primary flag the resolver assigns at position `i`: an explicit
`is_primary` value is kept verbatim; a missing one defaults to true exactly
at index 0 when no spec carries a truthy explicit mark. -/
def expected_primary (columns : List ColumnSpec) (i : Nat) : Json :=
  match (columns.getD i ⟨.null, none, none, none⟩).is_primary with
  | some v => v
  | none => Json.bool (!primary_seen_init columns && i == 0)

theorem create_columns_loop_length :
    ∀ (cs : List ColumnSpec) (seen : Bool) (i0 : Nat),
      (create_columns_loop seen i0 cs).length = cs.length := by
  intro cs
  induction cs with
  | nil => intro seen i0; simp [create_columns_loop]
  | cons c rest ih =>
    intro seen i0
    cases hc : c.is_primary <;> simp [create_columns_loop, hc, ih]

theorem create_columns_loop_getD :
    ∀ (cs : List ColumnSpec) (seen : Bool) (i0 j : Nat), j < cs.length →
      ((create_columns_loop seen i0 cs).getD j ⟨.null, .null, .null, .null⟩).is_primary
        = loop_expected_primary seen i0 j (cs.getD j ⟨.null, none, none, none⟩) := by
  intro cs
  induction cs with
  | nil => intro seen i0 j hj; simp at hj
  | cons c rest ih =>
    intro seen i0 j hj
    cases j with
    | zero =>
      cases hc : c.is_primary with
      | none => simp [create_columns_loop, hc, loop_expected_primary, List.getD]
      | some v => simp [create_columns_loop, hc, loop_expected_primary, List.getD]
    | succ j =>
      have hj2 : j < rest.length := by simpa using hj
      cases hc : c.is_primary with
      | none =>
        have hrec := ih (seen || (!seen && i0 == 0)) (i0 + 1) j hj2
        simp only [create_columns_loop, hc, List.getD_cons_succ]
        rw [hrec]
        cases hp : (rest.getD j ⟨.null, none, none, none⟩).is_primary <;>
          simp [loop_expected_primary, hp]
      | some v =>
        have hrec := ih seen (i0 + 1) j hj2
        simp only [create_columns_loop, hc, List.getD_cons_succ]
        rw [hrec]
        cases hp : (rest.getD j ⟨.null, none, none, none⟩).is_primary <;>
          simp [loop_expected_primary, hp]

/-- C1 is false as stated: with the specs
`[{name:"a", is_primary:false}, {name:"b"}]` no spec explicitly marks a
primary (`primary_seen_init` is false), yet the resolver marks NO column
primary — index 0 keeps its explicit `false` and index 1 defaults to
non-primary — contradicting "the column at index 0 is marked primary". -/
theorem C1_create_counterexample :
    primary_seen_init
        [⟨.str "a", none, none, some (.bool false)⟩, ⟨.str "b", none, none, none⟩]
      = false ∧
    (create_formatted_columns
        [⟨.str "a", none, none, some (.bool false)⟩,
         ⟨.str "b", none, none, none⟩]).map (fun c => c.is_primary)
      = [.bool false, .bool false] :=
  ⟨rfl, rfl⟩

/-- C1 (amended): the resolver keeps every explicit `is_primary` value
verbatim (so exactly the explicitly-truthy-marked columns are primary when
such a mark exists), and a column omitting `is_primary` is marked primary
exactly when no spec carries a truthy explicit mark and its index is 0; in
particular, when no spec explicitly marks a primary but spec 0 explicitly
sets a falsy `is_primary`, no column at all is marked primary. -/
theorem C1_create_primary_amended (columns : List ColumnSpec) (i : Nat)
    (hi : i < columns.length) :
    (create_formatted_columns columns).length = columns.length ∧
    ((create_formatted_columns columns).getD i ⟨.null, .null, .null, .null⟩).is_primary
      = expected_primary columns i := by
  refine ⟨create_columns_loop_length columns (primary_seen_init columns) 0, ?_⟩
  have h := create_columns_loop_getD columns (primary_seen_init columns) 0 i hi
  have hstep : create_formatted_columns columns
      = create_columns_loop (primary_seen_init columns) 0 columns := rfl
  rw [hstep, h]
  cases hp : (columns.getD i ⟨.null, none, none, none⟩).is_primary <;>
    simp [loop_expected_primary, expected_primary, hp]

/-- Witness for C1 (amended): two specs without explicit marks; index 0 is
defaulted to primary. -/
theorem C1_create_primary_witness :
    (create_formatted_columns
        [⟨.str "a", none, none, none⟩, ⟨.str "b", none, none, none⟩]).length
      = ([⟨.str "a", none, none, none⟩, ⟨.str "b", none, none, none⟩]
          : List ColumnSpec).length ∧
    ((create_formatted_columns
        [⟨.str "a", none, none, none⟩, ⟨.str "b", none, none, none⟩]).getD 0
          ⟨.null, .null, .null, .null⟩).is_primary
      = expected_primary [⟨.str "a", none, none, none⟩, ⟨.str "b", none, none, none⟩] 0 :=
  C1_create_primary_amended
    [⟨.str "a", none, none, none⟩, ⟨.str "b", none, none, none⟩] 0 (by decide)

/-! ### C8: error sentinels of the response shaper -/

/-- C8: for all flag values, `_process_response` on an empty body returns
the literal empty-response sentinel, and on a non-empty body whose JSON
parse fails it returns the literal sentinel embedding the raw text; in both
cases a string is returned and nothing is raised. -/
theorem C8_error_sentinels (text : String) (parsed : Option Json)
    (tab types : Bool) (hne : text ≠ "") :
    process_response "" parsed tab types = .ok "Error: Empty response from server" ∧
    process_response text none tab types
      = .ok ("Error: Response: " ++ text ++ " could not be decoded as JSON") := by
  constructor
  · simp [process_response]
  · simp [process_response, hne]

/-- Witness for C8 at the empty body and at the unparseable body `"x"`. -/
theorem C8_error_sentinels_witness :
    process_response "" none false false = .ok "Error: Empty response from server" ∧
    process_response "x" none true true
      = .ok ("Error: Response: " ++ "x" ++ " could not be decoded as JSON") :=
  ⟨(C8_error_sentinels "x" none false false (by decide)).1,
   (C8_error_sentinels "x" none true true (by decide)).2⟩

/-! ### C3: pass-through requires both `headers` and `rows` to be absent? -/

/-- C3 is false as stated: a parsed body carrying a `headers` field but no
`rows` field does not take the decoding path — the source requires both
fields to be present (`"headers" in response_data and "rows" in
response_data`) — and the raw response text is returned unchanged. -/
theorem C3_passthrough_counterexample :
    process_response "RAW" (some (.obj [("headers", .arr [])])) false false
      = .ok "RAW" := rfl

/-- C3 (amended): for a parsed dict body, the raw text is returned unchanged
exactly when the body lacks `headers` or lacks `rows`; when both fields are
present the tabular decoding branch (`process_tabular`) is taken. -/
theorem C3_passthrough_amended (text : String) (kvs : List (String × Json))
    (tab types : Bool) (hne : text ≠ "") :
    (¬ (hasKey kvs "headers" = true ∧ hasKey kvs "rows" = true) →
      process_response text (some (.obj kvs)) tab types = .ok text) ∧
    ((hasKey kvs "headers" = true ∧ hasKey kvs "rows" = true) →
      process_response text (some (.obj kvs)) tab types
        = process_tabular (.obj kvs) tab types) := by
  constructor
  · intro h
    by_cases h1 : hasKey kvs "headers" = true
    · by_cases h2 : hasKey kvs "rows" = true
      · exact absurd ⟨h1, h2⟩ h
      · have h2f : hasKey kvs "rows" = false := by
          cases hh : hasKey kvs "rows" <;> simp_all
        simp [process_response, hne, pyContains, h1, h2f]
    · have h1f : hasKey kvs "headers" = false := by
        cases hh : hasKey kvs "headers" <;> simp_all
      simp [process_response, hne, pyContains, h1f]
  · rintro ⟨h1, h2⟩
    simp [process_response, hne, pyContains, h1, h2]

/-- Witness for C3 (amended): a headers-only body passes through; a body
with both fields takes the tabular branch. -/
theorem C3_passthrough_witness :
    process_response "T" (some (.obj [("rows", .arr [])])) true false = .ok "T" ∧
    process_response "T" (some (.obj [("headers", .arr []), ("rows", .arr [])])) false false
      = process_tabular (.obj [("headers", .arr []), ("rows", .arr [])]) false false :=
  ⟨(C3_passthrough_amended "T" [("rows", .arr [])] true false (by decide)).1 (by decide),
   (C3_passthrough_amended "T" [("headers", .arr []), ("rows", .arr [])] false false
      (by decide)).2 (by decide)⟩

/-! ### C6: type-annotated headers from the first row -/

theorem pyIndexNat_arr {xs : List Json} {i : Nat} (h : i < xs.length) :
    pyIndexNat (.arr xs) i = .ok (xs.getD i .null) := by
  have h2 : xs[i]? = some xs[i] := List.getElem?_eq_getElem h
  simp [pyIndexNat, h2, List.getD_eq_getElem?_getD]

theorem typed_header_cells_ok (hs : List Json) :
    ∀ (cells : List Json) (i0 : Nat),
      (∀ c ∈ cells, (extract_value_and_type c).isOk = true) →
      i0 + cells.length ≤ hs.length →
      ∃ ths, typed_header_cells (.arr hs) i0 cells = .ok ths ∧
        ths.length = cells.length ∧
        ∀ j, j < cells.length →
          ∃ v t, extract_value_and_type (cells.getD j .null) = .ok (v, t) ∧
            ths.getD j .null
              = .str (pyToStr (hs.getD (i0 + j) .null) ++ " (" ++ t ++ ")") := by
  intro cells
  induction cells with
  | nil =>
    intro i0 _ _
    exact ⟨[], by simp [typed_header_cells], by simp, by intro j hj; simp at hj⟩
  | cons c cs ih =>
    intro i0 hok hlen
    have hlen2 : i0 + cs.length + 1 ≤ hs.length := by
      simp only [List.length_cons] at hlen
      omega
    have hi0 : i0 < hs.length := by omega
    have hcok := hok c (List.mem_cons_self c cs)
    cases hres : extract_value_and_type c with
    | error e =>
      rw [hres] at hcok
      simp [Except.isOk, Except.toBool] at hcok
    | ok vt =>
      rcases ih (i0 + 1) (fun x hx => hok x (List.mem_cons_of_mem c hx)) (by omega)
        with ⟨ths, hths, hlenths, hpt⟩
      refine ⟨.str (pyToStr (hs.getD i0 .null) ++ " (" ++ vt.2 ++ ")") :: ths, ?_, ?_, ?_⟩
      · simp [typed_header_cells, pyIndexNat_arr hi0, hres, hths]
      · simp [hlenths]
      · intro j hj
        cases j with
        | zero => exact ⟨vt.1, vt.2, by simpa using hres, by simp⟩
        | succ j =>
          have hj2 : j < cs.length := by simpa using hj
          rcases hpt j hj2 with ⟨v, t, hvt, hth⟩
          have harith : i0 + 1 + j = i0 + (j + 1) := by omega
          rw [harith] at hth
          exact ⟨v, t, by simpa using hvt, by simpa using hth⟩

/-- C6: when include_types is set and there is at least one row, the typed
headers are the original header texts, each with the type label decoded
from the first row's cell in the same column appended in parentheses; when
there are zero rows the headers value is returned unmodified. -/
theorem C6_typed_headers (hs cells rest : List Json)
    (hok : ∀ c ∈ cells, (extract_value_and_type c).isOk = true)
    (hlen : cells.length ≤ hs.length) :
    (∀ headers : Json, typed_headers_calc headers (.arr []) = .ok headers) ∧
    (∃ ths, typed_headers_calc (.arr hs) (.arr (.arr cells :: rest)) = .ok (.arr ths) ∧
      ths.length = cells.length ∧
      ∀ j, j < cells.length →
        ∃ v t, extract_value_and_type (cells.getD j .null) = .ok (v, t) ∧
          ths.getD j .null = .str (pyToStr (hs.getD j .null) ++ " (" ++ t ++ ")")) := by
  constructor
  · intro headers
    simp [typed_headers_calc, pyTruthy]
  · rcases typed_header_cells_ok hs cells 0 hok (by simpa using hlen) with ⟨ths, h1, h2, h3⟩
    refine ⟨ths, ?_, h2, ?_⟩
    · simp [typed_headers_calc, pyTruthy, pyIndexNat, pyIter, h1]
    · intro j hj
      rcases h3 j hj with ⟨v, t, hvt, hth⟩
      exact ⟨v, t, hvt, by simpa using hth⟩

/-- Witness for C6: zero rows leave the header list unmodified; one row
with an `Int`-tagged cell annotates the header `"age"` as `"age (Int)"`. -/
theorem C6_typed_headers_witness :
    typed_headers_calc (.arr [.str "age"]) (.arr []) = .ok (.arr [.str "age"]) ∧
    (∃ ths,
      typed_headers_calc (.arr [.str "age"])
          (.arr [.arr [.obj [("Num", .obj [("Int", .int 30)])]]])
        = .ok (.arr ths) ∧
      ths.length = [Json.obj [("Num", .obj [("Int", .int 30)])]].length ∧
      ∀ j, j < [Json.obj [("Num", .obj [("Int", .int 30)])]].length →
        ∃ v t, extract_value_and_type
            ([Json.obj [("Num", .obj [("Int", .int 30)])]].getD j .null) = .ok (v, t) ∧
          ths.getD j .null
            = .str (pyToStr ([Json.str "age"].getD j .null) ++ " (" ++ t ++ ")")) := by
  have h := C6_typed_headers [.str "age"] [.obj [("Num", .obj [("Int", .int 30)])]] []
    (by intro c hc; simp at hc; subst hc; rfl) (by decide)
  exact ⟨h.1 (.arr [.str "age"]), h.2⟩

/-! ### C7: JSON output of the shaper with tabulate unset -/

theorem lookupKey_setKey_same (kvs : List (String × Json)) (k : String) (v : Json) :
    lookupKey (setKey kvs k v) k = some v := by
  induction kvs with
  | nil => simp [setKey, lookupKey]
  | cons kv rest ih =>
    rcases kv with ⟨k1, v1⟩
    by_cases hk : k1 = k
    · simp [setKey, hk, lookupKey]
    · simp [setKey, hk, lookupKey, ih]

theorem lookupKey_setKey_other (kvs : List (String × Json)) (k k2 : String) (v : Json)
    (h : k2 ≠ k) : lookupKey (setKey kvs k v) k2 = lookupKey kvs k2 := by
  induction kvs with
  | nil =>
    have hne : ¬ k = k2 := fun hh => h hh.symm
    simp [setKey, lookupKey, hne]
  | cons kv rest ih =>
    rcases kv with ⟨k1, v1⟩
    by_cases hk : k1 = k
    · have hne : ¬ k = k2 := fun hh => h hh.symm
      have hne1 : ¬ k1 = k2 := by rw [hk]; exact hne
      simp [setKey, hk, lookupKey, hne, hne1]
    · by_cases hk2 : k1 = k2
      · simp [setKey, hk, lookupKey, hk2, h]
      · simp [setKey, hk, lookupKey, hk2, ih]

/-- C7: on a tabular body with tabulate unset — when include_types is set
the returned string is the entire original parsed body re-serialised as
JSON unchanged; when include_types is unset it is the body with exactly its
`rows` field replaced by the decoded un-tagged values (`simplify_rows`),
every other top-level field unchanged. -/
theorem C7_json_output (text : String) (kvs : List (String × Json))
    (headers rows typed : Json) (sr : List Json)
    (hne : text ≠ "")
    (hH : lookupKey kvs "headers" = some headers)
    (hR : lookupKey kvs "rows" = some rows)
    (hT : typed_headers_calc headers rows = .ok typed)
    (hS : simplify_rows rows = .ok sr) :
    process_response text (some (.obj kvs)) false true = .ok (dumps (.obj kvs)) ∧
    process_response text (some (.obj kvs)) false false
      = .ok (dumps (.obj (setKey kvs "rows" (.arr sr)))) ∧
    lookupKey (setKey kvs "rows" (.arr sr)) "rows" = some (.arr sr) ∧
    ∀ k2, k2 ≠ "rows" → lookupKey (setKey kvs "rows" (.arr sr)) k2 = lookupKey kvs k2 := by
  have h1 := hasKey_of_lookupKey hH
  have h2 := hasKey_of_lookupKey hR
  refine ⟨?_, ?_, lookupKey_setKey_same kvs "rows" (.arr sr),
    fun k2 hk2 => lookupKey_setKey_other kvs "rows" k2 (.arr sr) hk2⟩
  · simp [process_response, hne, pyContains, h1, h2, process_tabular,
      pyGetItem, hH, hR, hT, hS]
  · simp [process_response, hne, pyContains, h1, h2, process_tabular,
      pyGetItem, hH, hR, hS, setKeyJson]

/-- Witness for C7 at a body with an extra `ack` field: include_types
preserves the entire body; otherwise exactly `rows` is replaced. -/
theorem C7_json_output_witness :
    process_response "T"
        (some (.obj [("headers", .arr [.str "h"]),
                     ("rows", .arr [.arr [.obj [("Str", .str "x")]]]),
                     ("ack", .bool true)])) false true
      = .ok (dumps (.obj [("headers", .arr [.str "h"]),
                          ("rows", .arr [.arr [.obj [("Str", .str "x")]]]),
                          ("ack", .bool true)])) ∧
    process_response "T"
        (some (.obj [("headers", .arr [.str "h"]),
                     ("rows", .arr [.arr [.obj [("Str", .str "x")]]]),
                     ("ack", .bool true)])) false false
      = .ok (dumps (.obj (setKey
          [("headers", .arr [.str "h"]),
           ("rows", .arr [.arr [.obj [("Str", .str "x")]]]),
           ("ack", .bool true)] "rows" (.arr [.arr [.str "x"]])))) ∧
    lookupKey (setKey
        [("headers", .arr [.str "h"]),
         ("rows", .arr [.arr [.obj [("Str", .str "x")]]]),
         ("ack", .bool true)] "rows" (.arr [.arr [.str "x"]])) "rows"
      = some (.arr [.arr [.str "x"]]) ∧
    lookupKey (setKey
        [("headers", .arr [.str "h"]),
         ("rows", .arr [.arr [.obj [("Str", .str "x")]]]),
         ("ack", .bool true)] "rows" (.arr [.arr [.str "x"]])) "ack"
      = lookupKey
          [("headers", .arr [.str "h"]),
           ("rows", .arr [.arr [.obj [("Str", .str "x")]]]),
           ("ack", .bool true)] "ack" := by
  have h := C7_json_output "T"
    [("headers", .arr [.str "h"]),
     ("rows", .arr [.arr [.obj [("Str", .str "x")]]]),
     ("ack", .bool true)]
    (.arr [.str "h"]) (.arr [.arr [.obj [("Str", .str "x")]]])
    (.arr [.str "h (Str)"]) [.arr [.str "x"]]
    (by decide) rfl rfl rfl rfl
  exact ⟨h.1, h.2.1, h.2.2.1, h.2.2.2 "ack" (by decide)⟩

/-! ### C9 and C10: `modify_data` validation and payload -/

/-- C9: `modify_data` raises a `ValueError` (before building any payload or
making any network call) exactly when exactly one of fields/values is
supplied, or exactly one of text/embeddings is supplied, or neither the
fields/values pair nor the text/embeddings pair is fully supplied; when
none of these holds, no validation error is raised.  `insert`, `upsert`
and `update` delegate to `modify_data` unchanged. -/
theorem C9_modify_validation (op rn : Json) (a : ModifyArgs) :
    ((∃ e, modify_data op rn a = .error e) ↔
      (a.fields.isSome != a.values.isSome) = true ∨
      (a.text.isSome != a.embeddings.isSome) = true ∨
      (¬ (a.fields.isSome = true ∧ a.values.isSome = true) ∧
       ¬ (a.text.isSome = true ∧ a.embeddings.isSome = true))) ∧
    insert rn a = modify_data (.str "Insert") rn a ∧
    upsert rn a = modify_data (.str "Upsert") rn a ∧
    update rn a = modify_data (.str "Update") rn a := by
  refine ⟨?_, rfl, rfl, rfl⟩
  rcases a with ⟨f, v, t, e, ak, m, r⟩
  cases f <;> cases v <;> cases t <;> cases e <;> simp [modify_data]

/-- The `searchable_content` dict that C10 predicts: only the supplied
`metadata` and/or `reference` keys, in that order. -/
def expected_sc (m r : Option Json) : List (String × Json) :=
  (match m with
   | some mv => [("metadata", mv)]
   | none => [])
  ++ (match r with
      | some rv => [("reference", rv)]
      | none => [])

/-- C10: when fields and values are supplied, text and embeddings omitted,
and metadata or references supplied, the built payload's
`searchable_content` object holds exactly the supplied `metadata` and/or
`reference` keys — in particular neither a `text` nor an `embeddings`
key. -/
theorem C10_searchable_content (op rn f v : Json) (ak m r : Option Json)
    (hmr : m.isSome = true ∨ r.isSome = true) :
    ∃ payload,
      modify_data op rn ⟨some f, some v, none, none, ak, m, r⟩ = .ok payload ∧
      lookupKey payload "searchable_content" = some (.obj (expected_sc m r)) ∧
      hasKey (expected_sc m r) "text" = false ∧
      hasKey (expected_sc m r) "embeddings" = false ∧
      (∀ kv ∈ expected_sc m r, kv.1 = "metadata" ∨ kv.1 = "reference") := by
  cases ak <;> cases m <;> cases r
  · simp at hmr
  · exact ⟨_, rfl, by simp [modify_data, setSearchable, setKey, hasKey, lookupKey,
      expected_sc], by simp [expected_sc, hasKey], by simp [expected_sc, hasKey],
      by simp [expected_sc]⟩
  · exact ⟨_, rfl, by simp [modify_data, setSearchable, setKey, hasKey, lookupKey,
      expected_sc], by simp [expected_sc, hasKey], by simp [expected_sc, hasKey],
      by simp [expected_sc]⟩
  · exact ⟨_, rfl, by simp [modify_data, setSearchable, setKey, hasKey, lookupKey,
      expected_sc], by simp [expected_sc, hasKey], by simp [expected_sc, hasKey],
      by simp [expected_sc]⟩
  · simp at hmr
  · exact ⟨_, rfl, by simp [modify_data, setSearchable, setKey, hasKey, lookupKey,
      expected_sc], by simp [expected_sc, hasKey], by simp [expected_sc, hasKey],
      by simp [expected_sc]⟩
  · exact ⟨_, rfl, by simp [modify_data, setSearchable, setKey, hasKey, lookupKey,
      expected_sc], by simp [expected_sc, hasKey], by simp [expected_sc, hasKey],
      by simp [expected_sc]⟩
  · exact ⟨_, rfl, by simp [modify_data, setSearchable, setKey, hasKey, lookupKey,
      expected_sc], by simp [expected_sc, hasKey], by simp [expected_sc, hasKey],
      by simp [expected_sc]⟩

/-- Witness for C10: metadata supplied (references omitted), with an
`access_keys` entry also present. -/
theorem C10_searchable_content_witness :
    ∃ payload,
      modify_data (.str "Insert") (.str "t")
          ⟨some (.arr [.str "f"]), some (.arr [.str "v"]), none, none,
           some (.arr [.str "k"]), some (.obj [("a", .int 1)]), none⟩
        = .ok payload ∧
      lookupKey payload "searchable_content"
        = some (.obj (expected_sc (some (.obj [("a", .int 1)])) none)) ∧
      hasKey (expected_sc (some (.obj [("a", .int 1)])) none) "text" = false ∧
      hasKey (expected_sc (some (.obj [("a", .int 1)])) none) "embeddings" = false ∧
      (∀ kv ∈ expected_sc (some (.obj [("a", .int 1)])) none,
        kv.1 = "metadata" ∨ kv.1 = "reference") :=
  C10_searchable_content (.str "Insert") (.str "t") (.arr [.str "f"]) (.arr [.str "v"])
    (some (.arr [.str "k"])) (some (.obj [("a", .int 1)])) none (Or.inl rfl)
